import Mathlib

/-!
Verification of the getademo recorder core: capture-target resolution
(`src/recorder/backends/host.py`, `container.py`, `server.py`), the
speed-synchronization pipeline (`server.py:_adjust_video_to_audio`), the
recording-session state machine, window-list merging
(`src/recorder/utils/window_manager.py`), and video concatenation.

Coordinates and pixel sizes are embedded as `Int` (Python ints, possibly
negative for multi-monitor layouts); durations and speed factors as `ℚ`.
Python's `%` on ints agrees with Lean's `Int.emod` for a positive modulus,
and Python's `//`-free code here never divides ints.
-/

namespace Getademo

/-- Modelled from the spec: the record type `WindowBounds` lives in
`src/recorder/core/types.py`, which is not included in the sources; the spec
(§3) defines it as `{x, y, width, height}` integers in logical pixels. -/
structure WindowBounds where
  x : Int
  y : Int
  width : Int
  height : Int
deriving Repr, DecidableEq

/-- A screen record as produced by `HostBackend._get_macos_screens`
(host.py lines 197-247): 1-based `index`, origin `x`,`y`, logical
`width`/`height`, and backing `scale` factor (every parsed dict carries all
six keys, as does the hard-coded fallback entry). -/
structure Screen where
  index : Int
  x : Int
  y : Int
  width : Int
  height : Int
  scale : Int
deriving Repr, DecidableEq

/-- The overlap area computed inside the loop of
`HostBackend._find_screen_for_window` (host.py lines 329-340): the
intersection rectangle of the window and the screen, counted only when both
extents are strictly positive. -/
def overlapArea (b : WindowBounds) (s : Screen) : Int :=
  let overlapLeft := max b.x s.x
  let overlapRight := min (b.x + b.width) (s.x + s.width)
  let overlapTop := max b.y s.y
  let overlapBottom := min (b.y + b.height) (s.y + s.height)
  if overlapRight > overlapLeft ∧ overlapBottom > overlapTop then
    (overlapRight - overlapLeft) * (overlapBottom - overlapTop)
  else 0

/-- The accumulator loop of `HostBackend._find_screen_for_window`
(host.py lines 326-340): starting from `(None, 0)`, each screen replaces the
best candidate exactly when its (positive) overlap area strictly exceeds the
best overlap so far. -/
def bestStep (b : WindowBounds) (acc : Option Screen × Int) (s : Screen) :
    Option Screen × Int :=
  if overlapArea b s > acc.2 then (some s, overlapArea b s) else acc

def findBestScreen (b : WindowBounds) (screens : List Screen) :
    Option Screen × Int :=
  screens.foldl (bestStep b) (none, 0)

/-- `HostBackend._find_screen_for_window` (host.py lines 319-355): returns
`(screen_index, relative_x, relative_y, scale_factor)`.  The relative
coordinates are clamped below at 0; when no screen overlaps the window the
first screen (index 1) and scale 2 are assumed. -/
def findScreenForWindow (b : WindowBounds) (screens : List Screen) :
    Int × Int × Int × Int :=
  match findBestScreen b screens with
  | (some s, _) =>
      (s.index, max 0 (b.x - s.x), max 0 (b.y - s.y), s.scale)
  | (none, _) =>
      (1, max 0 b.x, max 0 b.y, 2)

/-- `width if width % 2 == 0 else width - 1` — the even-adjustment used by
the macOS capture path (host.py lines 172-174, 184-185) and
`RecordingBackend.start_recording` (base.py lines 161-162). -/
def evenTrim (n : Int) : Int :=
  if n % 2 = 0 then n else n - 1

/-- `width if width % 2 == 0 else width + 1` — the even-adjustment used by
the Linux host backend (host.py lines 382-383), the container backend
(container.py lines 73-74), the macOS crop origin (host.py lines 177-178)
and `get_window_capture_args` (server.py lines 268-269). -/
def evenPad (n : Int) : Int :=
  if n % 2 = 0 then n else n + 1

/-- The crop geometry computed by `HostBackend._get_macos_capture_args`. -/
structure CaptureGeom where
  width : Int
  height : Int
  cropX : Int
  cropY : Int
  captureW : Int
  captureH : Int
deriving Repr, DecidableEq

/-- The clamping / even-adjustment tail of
`HostBackend._get_macos_capture_args` (host.py lines 156-188), starting from
the capture frame size, the Retina-scaled crop origin and the Retina-scaled
window size: clamp the size to the room left of the crop origin with a floor
of 2, trim to even, pad the crop origin to even, and re-clamp (again with the
floor of 2) when the crop rectangle still sticks out of the capture frame. -/
def macosClampDims (captureW captureH scCropX scCropY rawW rawH : Int) :
    CaptureGeom :=
  let maxWidth := captureW - scCropX
  let maxHeight := captureH - scCropY
  let scaledW := max 2 (min rawW maxWidth)
  let scaledH := max 2 (min rawH maxHeight)
  let width := evenTrim scaledW
  let height := evenTrim scaledH
  let cropXFinal := evenPad scCropX
  let cropYFinal := evenPad scCropY
  if cropXFinal + width > captureW ∨ cropYFinal + height > captureH then
    let width' := evenTrim (min width (captureW - cropXFinal))
    let height' := evenTrim (min height (captureH - cropYFinal))
    ⟨max 2 width', max 2 height', cropXFinal, cropYFinal, captureW, captureH⟩
  else
    ⟨width, height, cropXFinal, cropYFinal, captureW, captureH⟩

/-- The `(width, height, scale)` triple of the screen the code captures
from: the screen whose `index` matches the result of
`_find_screen_for_window`, else the first screen, else the hard-coded
`{"width": 1920, "height": 1080, "scale": 2}` fallback
(host.py lines 139-142). -/
def captureScreenDims (screens : List Screen) (nsIdx : Int) :
    Int × Int × Int :=
  match screens.find? (fun s => s.index == nsIdx) with
  | some s => (s.width, s.height, s.scale)
  | none =>
      match screens with
      | s :: _ => (s.width, s.height, s.scale)
      | [] => (1920, 1080, 2)

/-- The geometry part of `HostBackend._get_macos_capture_args`
(host.py lines 129-195).  `probed` is the result of
`_probe_avfoundation_dimensions`; when both probed values are non-zero they
replace the `logical size × scale` computation (lines 150-154, mirroring
Python truthiness of the two ints). -/
def macosCaptureGeom (b : WindowBounds) (screens : List Screen)
    (probed : Option (Int × Int)) : CaptureGeom :=
  let r := findScreenForWindow b screens
  let nsIdx := r.1
  let cropX := r.2.1
  let cropY := r.2.2.1
  let scale := r.2.2.2
  let cap := captureScreenDims screens nsIdx
  let captureW0 := cap.1 * cap.2.2
  let captureH0 := cap.2.1 * cap.2.2
  let capWH :=
    match probed with
    | some (pw, ph) =>
        if pw ≠ 0 ∧ ph ≠ 0 then (pw, ph) else (captureW0, captureH0)
    | none => (captureW0, captureH0)
  macosClampDims capWH.1 capWH.2 (cropX * scale) (cropY * scale)
    (b.width * scale) (b.height * scale)

/-- The geometry part of `ContainerBackend.get_capture_args`
(container.py lines 68-85): `(width, height, x, y)` with odd window sizes
rounded up to even and origin coordinates within 50 logical pixels of the
origin snapped to 0. -/
def containerCaptureGeom (b : WindowBounds) : Int × Int × Int × Int :=
  let width := evenPad b.width
  let height := evenPad b.height
  let x := if b.x < 50 then 0 else b.x
  let y := if b.y < 50 then 0 else b.y
  (width, height, x, y)

/-- The geometry part of the Linux branch of `get_window_capture_args`
(server.py lines 262-281): identical even-rounding and origin snapping to the
container backend. -/
def serverLinuxCaptureGeom (b : WindowBounds) : Int × Int × Int × Int :=
  let width := evenPad b.width
  let height := evenPad b.height
  let x := if b.x < 50 then 0 else b.x
  let y := if b.y < 50 then 0 else b.y
  (width, height, x, y)

/-- The geometry part of `HostBackend._get_linux_capture_args`
(host.py lines 377-390): odd window sizes rounded up to even, origin used
unchanged. -/
def hostLinuxCaptureDims (b : WindowBounds) : Int × Int :=
  (evenPad b.width, evenPad b.height)

/-- The output-dimension adjustment of `RecordingBackend.start_recording`
(base.py lines 160-162): odd dimensions trimmed down to even. -/
def baseOutputDims (w h : Int) : Int × Int :=
  (evenTrim w, evenTrim h)

/-- Round a rational to the nearest integer, ties to even — the rounding
Python's `format` applies to the (here exactly represented) value when
rendering `{:.2f}`. -/
def roundHalfEven (q : ℚ) : Int :=
  let fl := ⌊q⌋
  if q - fl < 1/2 then fl
  else if q - fl > 1/2 then fl + 1
  else if fl % 2 = 0 then fl else fl + 1

/-- Python's `f"{x:.2f}"` on a non-negative value, modelled on the exact
rational: two decimal digits, nearest-ties-to-even. -/
def fmt2 (q : ℚ) : String :=
  let n := roundHalfEven (q * 100)
  let ip := n / 100
  let fp := (n % 100).natAbs
  toString ip ++ "." ++ (if fp < 10 then "0" else "") ++ toString fp

/-- The speed-factor classification of `_adjust_video_to_audio`
(server.py lines 1074-1088): returns the `(action, speed_change)` pair of
report strings. -/
def speedClassify (videoDuration audioDuration : ℚ) : String × String :=
  let speedFactor := videoDuration / audioDuration
  if |speedFactor - 1| < 1/100 then
    ("no change needed", "1.0x (unchanged)")
  else if speedFactor > 1 then
    ("speed up", fmt2 speedFactor ++ "x faster")
  else
    ("slow down", fmt2 (1 / speedFactor) ++ "x slower")

/-- The shape of the encoder invocation built by `_adjust_video_to_audio`
(server.py lines 1096-1110): a `setpts=PTS/f` filter on the video stream
(`filter_complex "[0:v]setpts=PTS/f[v]"`), the retimed video mapped out
(`-map "[v]"`), the audio of the second input mapped out with no filter
applied (`-map 1:a`), and `-shortest`. -/
structure AdjustCmd where
  setptsDivisor : ℚ
  mapsRetimedVideo : Bool
  mapsAudioUnfiltered : Bool
  shortest : Bool
deriving Repr, DecidableEq

/-- The command `_adjust_video_to_audio` always builds (server.py lines
1096-1110). -/
def buildAdjustCmd (f : ℚ) : AdjustCmd :=
  ⟨f, true, true, true⟩

/-- Modelled from the spec: the semantics of the external encoder run on an
`AdjustCmd` (the encoder itself is not repository code).  `setpts=PTS/f`
rewrites every video frame's presentation timestamp to `pts / f` without
adding or removing frames; the audio stream passes through at its original
rate; `-shortest` ends the output at the shorter stream's duration, cutting
any frame timed at or past that point.  Returns the output video timestamps
and the output duration. -/
def runAdjustCmd (cmd : AdjustCmd) (videoPts : List ℚ)
    (videoDur audioDur : ℚ) : List ℚ × ℚ :=
  let retimed := videoPts.map (fun p => p / cmd.setptsDivisor)
  let retimedDur := videoDur / cmd.setptsDivisor
  let outDur := if cmd.shortest then min retimedDur audioDur
                else max retimedDur audioDur
  (retimed.filter (fun p => p < outDur), outDur)

/-- The failure cases of `_adjust_video_to_audio`
(server.py lines 1049-1072). -/
inductive AdjustError
  | videoNotFound (path : String)
  | audioNotFound (path : String)
  | audioProbeFailed
  | videoProbeFailed
deriving Repr, DecidableEq

/-- The error texts returned by `_adjust_video_to_audio` for each failure
case (server.py lines 1050, 1052, 1061, 1072). -/
def adjustErrorMessage : AdjustError → String
  | .videoNotFound p => "Video not found: " ++ p
  | .audioNotFound p => "Audio not found: " ++ p
  | .audioProbeFailed => "Could not determine audio duration"
  | .videoProbeFailed => "Could not determine video duration"

/-- The stripped stdout of the video-duration `ffprobe` call
(server.py lines 1064-1069), as Python's
`float(result.stdout.strip()) if result.stdout.strip() else 0` sees it:
blank output is parsed as `0`, a parseable float gives its value, and any
other non-empty output (`ffprobe` prints `N/A` when a duration cannot be
determined) makes `float` raise `ValueError`. -/
inductive ProbeStdout
  | empty
  | numeric (q : ℚ)
  | nonNumeric (raw : String)
deriving Repr, DecidableEq

/-- Line 1069 of server.py: the parsed video duration, or the message of
the `ValueError` that `float` raises on non-numeric output. -/
def parseVideoDuration : ProbeStdout → Except String ℚ
  | .empty => .ok 0
  | .numeric q => .ok q
  | .nonNumeric raw =>
      .error ("could not convert string to float: " ++ "'" ++ raw ++ "'")

/-- The environment `_adjust_video_to_audio` observes: file existence, the
audio duration (`_get_audio_duration` catches every exception and returns
`0.0` on any probe failure, server.py lines 921-934) and the raw video-probe
output (whose parse can raise, lines 1064-1069). -/
structure AdjustEnv where
  videoPath : String
  audioPath : String
  videoExists : Bool
  audioExists : Bool
  audioDuration : ℚ
  videoProbe : ProbeStdout

/-- Outcomes of a speed-sync call as the calling agent sees them: a
structured failure text from `_adjust_video_to_audio` itself, the generic
`Error: {e}` text produced when an exception escapes to the
`except Exception` handler of `call_tool` (server.py lines 547-548), or
success. -/
inductive AdjustOutcome
  | failure (e : AdjustError)
  | uncaught (msg : String)
  | ok (action speed : String) (cmd : AdjustCmd)
deriving Repr, DecidableEq

/-- The guard-and-classify stage of `_adjust_video_to_audio`
(server.py lines 1045-1110): each guard is checked in source order; the
`float` call on a non-numeric probe output raises, and the exception is
surfaced by `call_tool` as a generic `Error: …` message. -/
def pyAdjustVideoToAudio (env : AdjustEnv) : AdjustOutcome :=
  if ¬env.videoExists then .failure (.videoNotFound env.videoPath)
  else if ¬env.audioExists then .failure (.audioNotFound env.audioPath)
  else if env.audioDuration ≤ 0 then .failure .audioProbeFailed
  else
    match parseVideoDuration env.videoProbe with
    | .error msg => .uncaught ("Error: " ++ msg)
    | .ok videoDuration =>
      if videoDuration ≤ 0 then .failure .videoProbeFailed
      else
        let cls := speedClassify videoDuration env.audioDuration
        .ok cls.1 cls.2 (buildAdjustCmd (videoDuration / env.audioDuration))

/-- A capture subprocess handle: `poll() is None` in the source is `alive =
true` here. -/
structure RecProc where
  alive : Bool
deriving Repr, DecidableEq

/-- The module-level recording state of server.py
(`_recording_process`, `_recording_path`, `_recording_start_time`,
`_recording_last_size`). -/
structure RecState where
  proc : Option RecProc
  path : Option String
  startTime : Option ℚ
  lastSize : Int
deriving Repr, DecidableEq

/-- Outcomes of `_start_recording` (server.py lines 551-709). -/
inductive StartOutcome
  | alreadyInProgress
  | noWindowDetected
  | captureArgsError (msg : String)
  | launchFailed (log : String)
  | started
deriving Repr, DecidableEq

/-- The environment `_start_recording` observes: the output path, the
window title after auto-detection (none when detection fails), the error
from `get_window_capture_args` if any, whether the spawned subprocess is
still alive after the 0.5 s grace wait, its log, and the current time. -/
structure StartEnv where
  outputPath : String
  windowTitle : Option String
  captureError : Option String
  surviveGrace : Bool
  launchLog : String
  now : ℚ

/-- `_start_recording` (server.py lines 551-709): the returned `Nat` counts
`subprocess.Popen` calls made during the invocation.  The already-recording
guard (lines 555-556) fires when a process handle exists and `poll()` is
`None`; every failure before line 650 returns with no subprocess spawned and
the module state untouched. -/
def pyStartRecording (st : RecState) (env : StartEnv) :
    RecState × StartOutcome × Nat :=
  if (match st.proc with | some p => p.alive | none => false) then
    (st, .alreadyInProgress, 0)
  else
    match env.windowTitle with
    | none => (st, .noWindowDetected, 0)
    | some _ =>
      match env.captureError with
      | some e => (st, .captureArgsError e, 0)
      | none =>
        if env.surviveGrace then
          (⟨some ⟨true⟩, some env.outputPath, some env.now, 0⟩, .started, 1)
        else
          (⟨none, none, none, 0⟩, .launchFailed env.launchLog, 1)

/-- Outcomes of `_stop_recording` (server.py lines 712-720). -/
inductive StopOutcome
  | notRecording
  | alreadyStopped
  | stopped
deriving Repr, DecidableEq

/-- `_stop_recording` (server.py lines 712-789): the `None`-handle guard
(lines 716-717) and the dead-process guard (lines 719-720) return early with
the state untouched; otherwise the escalating shutdown runs and the module
state is reset (lines 784-789). -/
def pyStopRecording (st : RecState) : RecState × StopOutcome :=
  match st.proc with
  | none => (st, .notRecording)
  | some p =>
    if p.alive = false then (st, .alreadyStopped)
    else (⟨none, none, none, 0⟩, .stopped)

/-- Modelled from the spec: the record type `WindowInfo` lives in
`src/recorder/core/types.py`, which is not included in the sources; the spec
(§3) defines it as `{title, window_id, pid (optional), bounds (optional),
app_name (optional)}`. -/
structure WindowInfo where
  title : String
  window_id : String
  pid : Option Int
  bounds : Option WindowBounds
  app_name : Option String
deriving Repr, DecidableEq

/-- Whether a character list starts with the given pattern. -/
def charsStartWith : List Char → List Char → Bool
  | [], _ => true
  | _ :: _, [] => false
  | p :: ps, c :: cs => p == c && charsStartWith ps cs

/-- Whether a character list contains the given pattern as a contiguous
run. -/
def charsContain (pat : List Char) : List Char → Bool
  | [] => charsStartWith pat []
  | c :: cs => charsStartWith pat (c :: cs) || charsContain pat cs

/-- Python's `pat in s` substring test. -/
def strContains (s pat : String) : Bool :=
  charsContain pat.data s.data

/-- The `seen_titles` / `all_windows` accumulation used for methods 1 and 3
of `_macos_list_windows` (window_manager.py lines 354-367, 379-389): keep
each record whose `(app_name, title)` key was not seen before, in order. -/
def dedupStep (acc : List WindowInfo × List (Option String × String))
    (w : WindowInfo) : List WindowInfo × List (Option String × String) :=
  let key := (w.app_name, w.title)
  if acc.2.contains key then acc else (acc.1 ++ [w], key :: acc.2)

def dedupByKey (ws : List WindowInfo) : List WindowInfo :=
  (ws.foldl dedupStep ([], [])).1

/-- One step of method 2 of `_macos_list_windows` (window_manager.py lines
371-377): a Chrome-query record is skipped when some already-collected
record has the same title and a `Chrome`-containing app name. -/
def chromeMergeStep (acc : List WindowInfo) (w : WindowInfo) :
    List WindowInfo :=
  if acc.any (fun w2 =>
      w2.title == w.title && strContains (w2.app_name.getD "") "Chrome")
  then acc else acc ++ [w]

/-- `_macos_list_windows` (window_manager.py lines 352-395) as a function of
the four underlying mechanisms' outputs: the CG list deduplicated by
`(app_name, title)`; then each Chrome-query record appended unless some
already-collected record has the same title and a `Chrome`-containing
app name; the System Events list (same dedup) only when the first two
produced nothing; the running-apps fallback when all else is empty. -/
def macosListWindows (cg chrome se fallbackApps : List WindowInfo) :
    List WindowInfo :=
  let all1 := dedupByKey cg
  let all2 := chrome.foldl chromeMergeStep all1
  let all3 := if all2.isEmpty then dedupByKey se else all2
  if all3.isEmpty then fallbackApps else all3

/-- The filesystem-visible steps of `_concatenate_videos`
(server.py lines 990-1031), in execution order. -/
inductive ConcatEvent
  | mkdirOutputParent
  | createManifest (lines : List String)
  | runConcat (manifest : List String) (rc : Int)
  | deleteManifest
deriving Repr, DecidableEq

/-- The manifest lines `_concatenate_videos` writes (server.py lines
999-1002): one `file '<path>'` line per input, in order. -/
def manifestLines (videoPaths : List String) : List String :=
  videoPaths.map (fun p => "file " ++ "'" ++ p ++ "'")

/-- `_concatenate_videos` (server.py lines 990-1031) against an external
join tool modelled as `ffmpegRun : manifest ↦ (returncode, stderr)`: the
manifest is written, the tool is run, and the `finally` block deletes the
manifest on both the error return (non-zero exit, lines 1016-1017) and the
success path. -/
def pyConcatenateVideos (videoPaths : List String)
    (ffmpegRun : List String → Int × String) :
    List ConcatEvent × Except String Unit :=
  let manifest := manifestLines videoPaths
  let r := ffmpegRun manifest
  ([.mkdirOutputParent, .createManifest manifest,
    .runConcat manifest r.1, .deleteManifest],
   if r.1 ≠ 0 then .error ("Error: " ++ r.2) else .ok ())

/-- `{:.2f}` formatting of the exact value 3/2. -/
theorem fmt2_three_halves : fmt2 (3/2) = "1.50" := by
  have h1 : ((3 : ℚ)/2) * 100 = ((150 : ℤ) : ℚ) := by norm_num
  have h2 : roundHalfEven ((150 : ℤ) : ℚ) = 150 := by
    simp [roundHalfEven, Int.floor_intCast]
  simp only [fmt2, h1, h2]
  decide

/-- C1: for video duration `v > 0` and audio duration `a > 0` the speed-sync
classification computes `factor = v / a`; `|factor − 1| < 0.01` reports no
change, `factor > 1` reports "speed up" with the factor formatted to two
decimals, and otherwise "slow down" with `1/factor`; in particular
`v = 12, a = 8` gives "1.50x faster" and `v = 8, a = 12` gives
"1.50x slower". -/
theorem C1_speed_sync_classification (v a : ℚ) (_hv : 0 < v) (_ha : 0 < a) :
    (|v / a - 1| < 1/100 →
        speedClassify v a = ("no change needed", "1.0x (unchanged)")) ∧
    (¬ |v / a - 1| < 1/100 → v / a > 1 →
        speedClassify v a = ("speed up", fmt2 (v / a) ++ "x faster")) ∧
    (¬ |v / a - 1| < 1/100 → ¬ v / a > 1 →
        speedClassify v a = ("slow down", fmt2 (1 / (v / a)) ++ "x slower")) ∧
    speedClassify 12 8 = ("speed up", "1.50x faster") ∧
    speedClassify 8 12 = ("slow down", "1.50x slower") := by
  refine ⟨?_, ?_, ?_, ?_, ?_⟩
  · intro h; rw [speedClassify, if_pos h]
  · intro h h'; rw [speedClassify, if_neg h, if_pos h']
  · intro h h'; rw [speedClassify, if_neg h, if_neg h']
  · rw [speedClassify, if_neg (by norm_num [abs_of_nonneg]), if_pos (by norm_num),
      show ((12 : ℚ)/8) = 3/2 by norm_num, fmt2_three_halves]
    rfl
  · rw [speedClassify, if_neg (by norm_num [abs_of_nonpos]), if_neg (by norm_num),
      show (1 / ((8 : ℚ)/12)) = 3/2 by norm_num, fmt2_three_halves]
    rfl

/-- Witness for C1 at `v = 12`, `a = 8`. -/
theorem C1_speed_sync_classification_witness :
    speedClassify 12 8 = ("speed up", "1.50x faster") :=
  (C1_speed_sync_classification 12 8 (by norm_num) (by norm_num)).2.2.2.1

/-- C6: starting while a live capture subprocess exists returns the
already-recording failure with the module state untouched and no subprocess
spawned; stopping with no recording process returns the not-recording
failure with the state untouched. -/
theorem C6_session_state_guards (st st' : RecState) (env : StartEnv)
    (p : RecProc) (h1 : st.proc = some p) (h2 : p.alive = true)
    (h3 : st'.proc = none) :
    pyStartRecording st env = (st, .alreadyInProgress, 0) ∧
    pyStopRecording st' = (st', .notRecording) := by
  constructor
  · simp [pyStartRecording, h1, h2]
  · simp [pyStopRecording, h3]

/-- Witness for C6: a live process on one state, no process on another. -/
theorem C6_session_state_guards_witness :
    pyStartRecording ⟨some ⟨true⟩, some "out.mp4", some 0, 0⟩
        ⟨"new.mp4", some "Firefox", none, true, "", 1⟩ =
      (⟨some ⟨true⟩, some "out.mp4", some 0, 0⟩, .alreadyInProgress, 0) ∧
    pyStopRecording ⟨none, none, none, 0⟩ = (⟨none, none, none, 0⟩, .notRecording) :=
  C6_session_state_guards ⟨some ⟨true⟩, some "out.mp4", some 0, 0⟩
    ⟨none, none, none, 0⟩ ⟨"new.mp4", some "Firefox", none, true, "", 1⟩
    ⟨true⟩ rfl rfl rfl

/-- C7 (amended): when both files exist, a failing audio probe (encoded as
a non-positive duration) and an empty-output or non-positive video probe
each fail with a distinct structured error naming which stream could not be
probed, before any transformation; but a non-numeric video-probe output
(such as the probe's `N/A`) raises an uncaught parse exception that is
surfaced as a generic error message naming no file. -/
theorem C7_duration_probe_failures (env : AdjustEnv)
    (hv : env.videoExists = true) (ha : env.audioExists = true) :
    (env.audioDuration ≤ 0 →
        pyAdjustVideoToAudio env = .failure .audioProbeFailed) ∧
    (0 < env.audioDuration → env.videoProbe = .empty →
        pyAdjustVideoToAudio env = .failure .videoProbeFailed) ∧
    (∀ q, 0 < env.audioDuration → env.videoProbe = .numeric q → q ≤ 0 →
        pyAdjustVideoToAudio env = .failure .videoProbeFailed) ∧
    adjustErrorMessage .audioProbeFailed ≠
      adjustErrorMessage .videoProbeFailed ∧
    (env.audioDuration ≤ 0 →
        ∀ act sp cmd, pyAdjustVideoToAudio env ≠ .ok act sp cmd) ∧
    (∀ raw, 0 < env.audioDuration → env.videoProbe = .nonNumeric raw →
        pyAdjustVideoToAudio env =
          .uncaught ("Error: " ++
            ("could not convert string to float: " ++ "'" ++ raw ++ "'"))) := by
  refine ⟨?_, ?_, ?_, by decide, ?_, ?_⟩
  · intro h; simp [pyAdjustVideoToAudio, hv, ha, h]
  · intro h hp
    simp [pyAdjustVideoToAudio, hv, ha, not_le.2 h, hp, parseVideoDuration]
  · intro q h hp hq
    simp [pyAdjustVideoToAudio, hv, ha, not_le.2 h, hp, parseVideoDuration, hq]
  · intro h act sp cmd; simp [pyAdjustVideoToAudio, hv, ha, h]
  · intro raw h hp
    simp [pyAdjustVideoToAudio, hv, ha, not_le.2 h, hp, parseVideoDuration]

/-- C7 counterexample: a video probe printing `N/A` (a duration the probe
cannot determine) — the operation surfaces the uncaught `float` exception as
a generic error that contains neither the video path, nor the word `video`,
nor the word `audio`: it names no file. -/
theorem C7_counterexample :
    pyAdjustVideoToAudio ⟨"v.mp4", "a.mp3", true, true, 5, .nonNumeric "N/A"⟩ =
      .uncaught "Error: could not convert string to float: 'N/A'" ∧
    strContains "Error: could not convert string to float: 'N/A'" "v.mp4"
        = false ∧
    strContains "Error: could not convert string to float: 'N/A'" "video"
        = false ∧
    strContains "Error: could not convert string to float: 'N/A'" "audio"
        = false := by
  refine ⟨by decide, by decide, by decide, by decide⟩

/-- Witness for C7: a failing audio probe (duration 0) and, on another
environment, a blank video-probe output. -/
theorem C7_duration_probe_failures_witness :
    pyAdjustVideoToAudio ⟨"v.mp4", "a.mp3", true, true, 0, .numeric 5⟩ =
      .failure .audioProbeFailed ∧
    pyAdjustVideoToAudio ⟨"v.mp4", "a.mp3", true, true, 5, .empty⟩ =
      .failure .videoProbeFailed :=
  ⟨(C7_duration_probe_failures ⟨"v.mp4", "a.mp3", true, true, 0, .numeric 5⟩
      rfl rfl).1 (by norm_num),
   (C7_duration_probe_failures ⟨"v.mp4", "a.mp3", true, true, 5, .empty⟩
      rfl rfl).2.1 (by norm_num) rfl⟩

/-- C10: in the container backend and in the server's Linux capture path, a
reported origin coordinate below 50 logical pixels is snapped to 0 and a
coordinate of 50 or more is used unchanged, independently per axis. -/
theorem C10_origin_snap (b : WindowBounds) :
    (b.x < 50 → (containerCaptureGeom b).2.2.1 = 0) ∧
    (50 ≤ b.x → (containerCaptureGeom b).2.2.1 = b.x) ∧
    (b.y < 50 → (containerCaptureGeom b).2.2.2 = 0) ∧
    (50 ≤ b.y → (containerCaptureGeom b).2.2.2 = b.y) ∧
    (b.x < 50 → (serverLinuxCaptureGeom b).2.2.1 = 0) ∧
    (50 ≤ b.x → (serverLinuxCaptureGeom b).2.2.1 = b.x) ∧
    (b.y < 50 → (serverLinuxCaptureGeom b).2.2.2 = 0) ∧
    (50 ≤ b.y → (serverLinuxCaptureGeom b).2.2.2 = b.y) := by
  simp only [containerCaptureGeom, serverLinuxCaptureGeom]
  refine ⟨?_, ?_, ?_, ?_, ?_, ?_, ?_, ?_⟩ <;> intro h <;> split <;> omega

/-- The overlap area of a window and a screen is never negative. -/
theorem overlapArea_nonneg (b : WindowBounds) (s : Screen) :
    0 ≤ overlapArea b s := by
  simp only [overlapArea]
  split
  · rename_i h
    exact le_of_lt (mul_pos (by omega) (by omega))
  · exact le_refl 0

/-- The best-screen fold leaves its accumulator unchanged when no remaining
screen's overlap strictly exceeds the best overlap so far. -/
theorem foldl_bestStep_fixed (b : WindowBounds) :
    ∀ (l : List Screen) (acc : Option Screen × Int),
      (∀ s ∈ l, overlapArea b s ≤ acc.2) →
      l.foldl (bestStep b) acc = acc := by
  intro l
  induction l with
  | nil => intro acc _; rfl
  | cons s0 rest ih =>
    intro acc h
    have h0 : overlapArea b s0 ≤ acc.2 := h s0 (List.mem_cons_self _ _)
    have hstep : bestStep b acc s0 = acc := by
      unfold bestStep; rw [if_neg (not_lt.2 h0)]
    rw [List.foldl_cons, hstep]
    exact ih acc fun s hs => h s (List.mem_cons_of_mem _ hs)

/-- The best-screen fold returns the screen whose overlap strictly exceeds
every other screen's overlap and the starting accumulator. -/
theorem foldl_bestStep_max (b : WindowBounds) :
    ∀ (l : List Screen) (acc : Option Screen × Int) (t : Screen),
      t ∈ l → 0 ≤ acc.2 → acc.2 < overlapArea b t →
      (∀ s ∈ l, s ≠ t → overlapArea b s < overlapArea b t) →
      l.foldl (bestStep b) acc = (some t, overlapArea b t) := by
  intro l
  induction l with
  | nil => intro acc t ht; exact absurd ht (List.not_mem_nil t)
  | cons s0 rest ih =>
    intro acc t ht hnn hlt hmax
    rw [List.foldl_cons]
    by_cases he : s0 = t
    · subst he
      have hstep : bestStep b acc s0 = (some s0, overlapArea b s0) := by
        unfold bestStep; rw [if_pos hlt]
      rw [hstep]
      apply foldl_bestStep_fixed
      intro s hs
      by_cases hs' : s = s0
      · subst hs'; exact le_refl _
      · exact le_of_lt (hmax s (List.mem_cons_of_mem _ hs) hs')
    · have ht' : t ∈ rest := by
        rcases List.mem_cons.mp ht with h | h
        · exact absurd h.symm he
        · exact h
      have hs0 : overlapArea b s0 < overlapArea b t :=
        hmax s0 (List.mem_cons_self _ _) he
      have hmax' : ∀ s ∈ rest, s ≠ t → overlapArea b s < overlapArea b t :=
        fun s hs => hmax s (List.mem_cons_of_mem _ hs)
      have hcases : bestStep b acc s0 = (some s0, overlapArea b s0) ∨
          bestStep b acc s0 = acc := by
        unfold bestStep; split
        · exact Or.inl rfl
        · exact Or.inr rfl
      rcases hcases with h | h <;> rw [h]
      · exact ih (some s0, overlapArea b s0) t ht' (overlapArea_nonneg b s0)
          hs0 hmax'
      · exact ih acc t ht' hnn hlt hmax'

/-- C2 (amended): the resolver selects the screen whose overlap area with
the window is positive and strictly greater than every other screen's, and
returns that screen's index and scale together with the crop origin
`window origin − screen origin`, clamped below at 0 in each axis. -/
theorem C2_greatest_overlap_screen (b : WindowBounds) (screens : List Screen)
    (t : Screen) (hmem : t ∈ screens) (hpos : 0 < overlapArea b t)
    (hmax : ∀ s ∈ screens, s ≠ t → overlapArea b s < overlapArea b t) :
    findScreenForWindow b screens =
      (t.index, max 0 (b.x - t.x), max 0 (b.y - t.y), t.scale) := by
  unfold findScreenForWindow findBestScreen
  rw [foldl_bestStep_max b screens (none, 0) t hmem (le_refl 0) hpos hmax]

/-- Witness for C2: the spec's concrete scenario 3 — a window at
`x=1800, y=100, w=800, h=600` on two side-by-side 1728- and 1920-wide
screens resolves to screen 2 with relative origin `(72, 100)`. -/
theorem C2_greatest_overlap_screen_witness :
    findScreenForWindow ⟨1800, 100, 800, 600⟩
      [⟨1, 0, 0, 1728, 1117, 1⟩, ⟨2, 1728, 0, 1920, 1117, 1⟩] =
      (2, 72, 100, 1) := by
  have h := C2_greatest_overlap_screen ⟨1800, 100, 800, 600⟩
    [⟨1, 0, 0, 1728, 1117, 1⟩, ⟨2, 1728, 0, 1920, 1117, 1⟩]
    ⟨2, 1728, 0, 1920, 1117, 1⟩ (by decide) (by decide) (by decide)
  simpa using h

/-- C2 counterexample: a window whose origin lies left of the selected
screen's origin (x = −100, fully overlapping screen 1, which starts at 0)
gets crop origin 0, not `window origin − screen origin = −100`. -/
theorem C2_counterexample :
    findScreenForWindow ⟨-100, 100, 800, 600⟩
      [⟨1, 0, 0, 1728, 1117, 1⟩, ⟨2, 1728, 0, 1920, 1117, 1⟩] =
      (1, 0, 100, 1) ∧
    (0 : Int) ≠ (-100 : Int) - 0 := by
  constructor
  · decide
  · decide

/-- The clamping tail of the macOS capture path keeps the crop rectangle
inside the capture frame as long as the even-adjusted crop origin leaves at
least 2 pixels of room on each axis. -/
theorem macosClampDims_fits (cw ch cx cy rw rh : Int)
    (hx : (macosClampDims cw ch cx cy rw rh).cropX + 2 ≤ cw)
    (hy : (macosClampDims cw ch cx cy rw rh).cropY + 2 ≤ ch) :
    (macosClampDims cw ch cx cy rw rh).cropX +
        (macosClampDims cw ch cx cy rw rh).width ≤ cw ∧
    (macosClampDims cw ch cx cy rw rh).cropY +
        (macosClampDims cw ch cx cy rw rh).height ≤ ch := by
  simp only [macosClampDims, evenTrim, evenPad,
    apply_ite CaptureGeom.cropX, apply_ite CaptureGeom.cropY,
    apply_ite CaptureGeom.width, apply_ite CaptureGeom.height,
    ite_self] at *
  split_ifs at * <;> omega

/-- C3 (amended): the macOS capture-target crop rectangle never exceeds the
capture frame bounds (probed capture dimensions preferred when the probe
succeeds), provided the even-adjusted crop origin leaves at least 2 pixels
of room to the frame edge on each axis. -/
theorem C3_crop_within_capture (b : WindowBounds) (screens : List Screen)
    (probed : Option (Int × Int))
    (hx : (macosCaptureGeom b screens probed).cropX + 2 ≤
        (macosCaptureGeom b screens probed).captureW)
    (hy : (macosCaptureGeom b screens probed).cropY + 2 ≤
        (macosCaptureGeom b screens probed).captureH) :
    (macosCaptureGeom b screens probed).cropX +
        (macosCaptureGeom b screens probed).width ≤
      (macosCaptureGeom b screens probed).captureW ∧
    (macosCaptureGeom b screens probed).cropY +
        (macosCaptureGeom b screens probed).height ≤
      (macosCaptureGeom b screens probed).captureH := by
  have hW : ∀ cw ch cx cy rw rh,
      (macosClampDims cw ch cx cy rw rh).captureW = cw := by
    intro cw ch cx cy rw rh
    simp only [macosClampDims]
    split <;> rfl
  have hH : ∀ cw ch cx cy rw rh,
      (macosClampDims cw ch cx cy rw rh).captureH = ch := by
    intro cw ch cx cy rw rh
    simp only [macosClampDims]
    split <;> rfl
  simp only [macosCaptureGeom] at *
  rw [hW, hH] at *
  exact macosClampDims_fits _ _ _ _ _ _ hx hy

/-- C3 counterexample: a probed capture frame of 200×200 with a window whose
Retina-scaled crop origin (1000) lies beyond the frame edge — the `max(2, …)`
floor leaves `crop_x + width = 1002 > 200`. -/
theorem C3_counterexample :
    ¬ ((macosCaptureGeom ⟨500, 0, 100, 100⟩ [⟨1, 0, 0, 1728, 1117, 2⟩]
          (some (200, 200))).cropX +
        (macosCaptureGeom ⟨500, 0, 100, 100⟩ [⟨1, 0, 0, 1728, 1117, 2⟩]
          (some (200, 200))).width ≤
       (macosCaptureGeom ⟨500, 0, 100, 100⟩ [⟨1, 0, 0, 1728, 1117, 2⟩]
          (some (200, 200))).captureW) := by
  decide

/-- Witness for C3 at a window well inside a single Retina screen with no
probe override. -/
theorem C3_crop_within_capture_witness :
    (macosCaptureGeom ⟨100, 100, 800, 600⟩ [⟨1, 0, 0, 1728, 1117, 2⟩]
        none).cropX +
      (macosCaptureGeom ⟨100, 100, 800, 600⟩ [⟨1, 0, 0, 1728, 1117, 2⟩]
        none).width ≤
      (macosCaptureGeom ⟨100, 100, 800, 600⟩ [⟨1, 0, 0, 1728, 1117, 2⟩]
        none).captureW ∧
    (macosCaptureGeom ⟨100, 100, 800, 600⟩ [⟨1, 0, 0, 1728, 1117, 2⟩]
        none).cropY +
      (macosCaptureGeom ⟨100, 100, 800, 600⟩ [⟨1, 0, 0, 1728, 1117, 2⟩]
        none).height ≤
      (macosCaptureGeom ⟨100, 100, 800, 600⟩ [⟨1, 0, 0, 1728, 1117, 2⟩]
        none).captureH :=
  C3_crop_within_capture ⟨100, 100, 800, 600⟩ [⟨1, 0, 0, 1728, 1117, 2⟩]
    none (by decide) (by decide)

set_option maxHeartbeats 1000000 in
/-- The macOS capture path always emits even output dimensions. -/
theorem macosClampDims_even (cw ch cx cy rw rh : Int) :
    (macosClampDims cw ch cx cy rw rh).width % 2 = 0 ∧
    (macosClampDims cw ch cx cy rw rh).height % 2 = 0 := by
  simp only [macosClampDims, evenTrim, evenPad,
    apply_ite CaptureGeom.width, apply_ite CaptureGeom.height]
  split_ifs <;> omega

/-- C4 (amended): every backend forces even capture/output dimensions, but
the direction of the adjustment differs — the macOS path and the base
backend's output dimensions trim an odd value down by one pixel, while the
Linux host backend, the container backend and the server's Linux capture
path round an odd window dimension up by one pixel. -/
theorem C4_even_dimensions (b : WindowBounds) (screens : List Screen)
    (probed : Option (Int × Int)) (w h : Int) :
    (macosCaptureGeom b screens probed).width % 2 = 0 ∧
    (macosCaptureGeom b screens probed).height % 2 = 0 ∧
    (baseOutputDims w h).1 % 2 = 0 ∧
    (baseOutputDims w h).2 % 2 = 0 ∧
    (w % 2 ≠ 0 → (baseOutputDims w h).1 = w - 1) ∧
    (containerCaptureGeom b).1 % 2 = 0 ∧
    (containerCaptureGeom b).2.1 % 2 = 0 ∧
    (b.width % 2 ≠ 0 → (containerCaptureGeom b).1 = b.width + 1) ∧
    (hostLinuxCaptureDims b).1 % 2 = 0 ∧
    (hostLinuxCaptureDims b).2 % 2 = 0 ∧
    (b.width % 2 ≠ 0 → (hostLinuxCaptureDims b).1 = b.width + 1) ∧
    (serverLinuxCaptureGeom b).1 % 2 = 0 ∧
    (serverLinuxCaptureGeom b).2.1 % 2 = 0 := by
  refine ⟨?_, ?_, ?_⟩
  · simp only [macosCaptureGeom]
    exact (macosClampDims_even _ _ _ _ _ _).1
  · simp only [macosCaptureGeom]
    exact (macosClampDims_even _ _ _ _ _ _).2
  · simp only [baseOutputDims, containerCaptureGeom, hostLinuxCaptureDims,
      serverLinuxCaptureGeom, evenTrim, evenPad]
    refine ⟨?_, ?_, ?_, ?_, ?_, ?_, ?_, ?_, ?_, ?_, ?_⟩ <;>
      split_ifs <;> omega

/-- C4 counterexample: a window 801 logical pixels wide — the container
backend and the Linux host backend report width 802 (one pixel added), not
the claimed 800 (one pixel trimmed). -/
theorem C4_counterexample :
    (containerCaptureGeom ⟨20, 60, 801, 600⟩).1 = 801 + 1 ∧
    (containerCaptureGeom ⟨20, 60, 801, 600⟩).1 ≠ 801 - 1 ∧
    (hostLinuxCaptureDims ⟨20, 60, 801, 600⟩).1 = 801 + 1 := by
  decide

/-- Witness for C4: odd inputs on the trimming and padding paths. -/
theorem C4_even_dimensions_witness :
    (baseOutputDims 801 600).1 = 801 - 1 ∧
    (containerCaptureGeom ⟨20, 60, 801, 601⟩).1 = 801 + 1 := by
  have h := C4_even_dimensions ⟨20, 60, 801, 601⟩ [] none 801 600
  exact ⟨h.2.2.2.2.1 (by decide), h.2.2.2.2.2.2.2.1 (by decide)⟩

/-- C5: the speed-sync command only re-times video frames — every output
timestamp is the input timestamp divided by `factor = v/a`, the frame count
is unchanged (no frame is dropped or cut by `-shortest`, since the retimed
video lasts exactly the audio duration), the audio is mapped with no filter,
and the output duration is governed by the audio track. -/
theorem C5_retiming_preserves_frames (v a : ℚ) (pts : List ℚ)
    (hv : 0 < v) (ha : 0 < a) (hpts : ∀ p ∈ pts, 0 ≤ p ∧ p < v) :
    (runAdjustCmd (buildAdjustCmd (v / a)) pts v a).1 =
        pts.map (fun p => p / (v / a)) ∧
    (runAdjustCmd (buildAdjustCmd (v / a)) pts v a).1.length = pts.length ∧
    (runAdjustCmd (buildAdjustCmd (v / a)) pts v a).2 = a ∧
    (buildAdjustCmd (v / a)).mapsAudioUnfiltered = true ∧
    (buildAdjustCmd (v / a)).shortest = true := by
  have hva : 0 < v / a := div_pos hv ha
  have hdur : v / (v / a) = a := by
    field_simp
  have hfil : ∀ q ∈ pts, decide (q / (v / a) < a) = true := by
    intro q hq
    rw [decide_eq_true_eq]
    have h := (div_lt_div_iff_of_pos_right hva).mpr (hpts q hq).2
    rwa [hdur] at h
  have hmap : (pts.map fun p => p / (v / a)).filter (fun p => p < a) =
      pts.map fun p => p / (v / a) := by
    apply List.filter_eq_self.mpr
    intro x hx
    rcases List.mem_map.mp hx with ⟨q, hq, rfl⟩
    exact hfil q hq
  simp only [runAdjustCmd, buildAdjustCmd, hdur, min_self, if_true]
  exact ⟨hmap, by rw [hmap, List.length_map], by trivial, by trivial, by trivial⟩

/-- Witness for C5: three frames of a 2-second clip synced to 1 second of
audio. -/
theorem C5_retiming_preserves_frames_witness :
    (runAdjustCmd (buildAdjustCmd ((2 : ℚ) / 1)) [0, 1, 3/2] 2 1).1 =
        [(0 : ℚ), 1, 3/2].map (fun p => p / ((2 : ℚ) / 1)) ∧
    (runAdjustCmd (buildAdjustCmd ((2 : ℚ) / 1)) [0, 1, 3/2] 2 1).1.length =
        [(0 : ℚ), 1, 3/2].length ∧
    (runAdjustCmd (buildAdjustCmd ((2 : ℚ) / 1)) [0, 1, 3/2] 2 1).2 = 1 ∧
    (buildAdjustCmd ((2 : ℚ) / 1)).mapsAudioUnfiltered = true ∧
    (buildAdjustCmd ((2 : ℚ) / 1)).shortest = true :=
  C5_retiming_preserves_frames 2 1 [0, 1, 3/2] (by norm_num) (by norm_num)
    (by
      intro p hp
      simp only [List.mem_cons, List.not_mem_nil, or_false] at hp
      rcases hp with rfl | rfl | rfl <;> norm_num)

/-- Method 2 of the window merge adds nothing when every Chrome-query
record already has a same-titled Chrome record collected. -/
theorem foldl_chromeMergeStep_fixed :
    ∀ (l : List WindowInfo) (acc : List WindowInfo),
      (∀ w ∈ l, acc.any (fun w2 =>
          w2.title == w.title &&
            strContains (w2.app_name.getD "") "Chrome") = true) →
      l.foldl chromeMergeStep acc = acc := by
  intro l
  induction l with
  | nil => intro acc _; rfl
  | cons w0 rest ih =>
    intro acc h
    have hstep : chromeMergeStep acc w0 = acc := by
      unfold chromeMergeStep
      rw [if_pos (h w0 (List.mem_cons_self _ _))]
    rw [List.foldl_cons, hstep]
    exact ih acc fun w hw => h w (List.mem_cons_of_mem _ hw)

/-- The dedup fold never shrinks its collected list. -/
theorem foldl_dedupStep_mono :
    ∀ (l : List WindowInfo)
      (acc : List WindowInfo × List (Option String × String)),
      acc.1.length ≤ (l.foldl dedupStep acc).1.length := by
  intro l
  induction l with
  | nil => intro acc; exact le_refl _
  | cons w0 rest ih =>
    intro acc
    have hstep : acc.1.length ≤ (dedupStep acc w0).1.length := by
      simp only [dedupStep]
      split
      · exact le_refl _
      · simp
    calc acc.1.length ≤ (dedupStep acc w0).1.length := hstep
      _ ≤ ((w0 :: rest).foldl dedupStep acc).1.length := by
          rw [List.foldl_cons]; exact ih (dedupStep acc w0)

/-- Deduplicating a non-empty list yields a non-empty list. -/
theorem dedupByKey_ne_nil (w : WindowInfo) (ws : List WindowInfo) :
    dedupByKey (w :: ws) ≠ [] := by
  have h1 : dedupStep ([], []) w = ([w], [(w.app_name, w.title)]) := rfl
  have h2 : (1 : Nat) ≤ (dedupByKey (w :: ws)).length := by
    unfold dedupByKey
    rw [List.foldl_cons, h1]
    exact foldl_dedupStep_mono ws ([w], [(w.app_name, w.title)])
  intro hnil
  rw [hnil] at h2
  exact absurd h2 (by simp)

/-- C8 (amended): the macOS window merge keeps the first-seen record for
each `(app_name, title)` key — a later Chrome-query duplicate is skipped by
the same-title/Chrome-app check regardless of which record carries bounds —
and the System Events mechanism contributes only when the first two
mechanisms produced nothing. -/
theorem C8_first_seen_record_kept (cg chrome se fallbackApps :
      List WindowInfo) (hcg : cg ≠ [])
    (hdup : ∀ w ∈ chrome, (dedupByKey cg).any (fun w2 =>
        w2.title == w.title &&
          strContains (w2.app_name.getD "") "Chrome") = true) :
    macosListWindows cg chrome se fallbackApps = dedupByKey cg := by
  obtain ⟨w, ws, rfl⟩ : ∃ w ws, cg = w :: ws := by
    cases cg with
    | nil => exact absurd rfl hcg
    | cons w ws => exact ⟨w, ws, rfl⟩
  have hne : (dedupByKey (w :: ws)).isEmpty = false := by
    rw [List.isEmpty_eq_false]
    exact dedupByKey_ne_nil w ws
  simp only [macosListWindows]
  rw [foldl_chromeMergeStep_fixed chrome (dedupByKey (w :: ws)) hdup, hne]
  simp [hne]

/-- Witness for C8: a CG record without bounds followed by a Chrome-query
duplicate of the same title — the merge keeps only the first-seen record. -/
theorem C8_first_seen_record_kept_witness :
    macosListWindows [⟨"T", "101", none, none, some "Google Chrome"⟩]
      [⟨"T", "chrome:1", none, some ⟨0, 0, 800, 600⟩, some "Google Chrome"⟩]
      [] [] =
      dedupByKey [⟨"T", "101", none, none, some "Google Chrome"⟩] :=
  C8_first_seen_record_kept
    [⟨"T", "101", none, none, some "Google Chrome"⟩]
    [⟨"T", "chrome:1", none, some ⟨0, 0, 800, 600⟩, some "Google Chrome"⟩]
    [] [] (by decide) (by decide)

/-- C8 counterexample: with one CG record lacking bounds and a Chrome-query
record of the same `(app_name, title)` carrying bounds, the merge returns
only the bounds-less first record — the bounds-populated duplicate is not
preferred. -/
theorem C8_counterexample :
    macosListWindows [⟨"T", "101", none, none, some "Google Chrome"⟩]
      [⟨"T", "chrome:1", none, some ⟨0, 0, 800, 600⟩, some "Google Chrome"⟩]
      [] [] =
      [⟨"T", "101", none, none, some "Google Chrome"⟩] ∧
    (WindowInfo.bounds ⟨"T", "101", none, none, some "Google Chrome"⟩)
        = none ∧
    (WindowInfo.bounds
        ⟨"T", "chrome:1", none, some ⟨0, 0, 800, 600⟩, some "Google Chrome"⟩)
        = some ⟨0, 0, 800, 600⟩ := by
  refine ⟨by decide, rfl, rfl⟩

/-- C9: with a join tool that exits non-zero on an empty manifest (the
documented behaviour of the external concat demuxer), invoking the
concatenator with an empty path list returns an error rather than a
successful output, and on every invocation — success or failure — deleting
the temporary manifest is the final filesystem step. -/
theorem C9_concat_input_and_cleanup (videoPaths : List String)
    (ffmpegRun : List String → Int × String)
    (hempty : (ffmpegRun (manifestLines [])).1 ≠ 0) :
    (pyConcatenateVideos [] ffmpegRun).2 =
        .error ("Error: " ++ (ffmpegRun (manifestLines [])).2) ∧
    (∀ r, (pyConcatenateVideos [] ffmpegRun).2 ≠ .ok r) ∧
    (pyConcatenateVideos videoPaths ffmpegRun).1.getLast? =
        some .deleteManifest ∧
    ConcatEvent.deleteManifest ∈ (pyConcatenateVideos videoPaths ffmpegRun).1 := by
  refine ⟨?_, ?_, rfl, ?_⟩
  · simp [pyConcatenateVideos, hempty]
  · intro r
    simp [pyConcatenateVideos, hempty]
  · simp [pyConcatenateVideos]

/-- Witness for C9: an oracle that fails exactly on the empty manifest. -/
theorem C9_concat_input_and_cleanup_witness :
    (pyConcatenateVideos []
        (fun m => if m.isEmpty then ((1 : Int), "no inputs") else (0, ""))).2 =
      .error "Error: no inputs" ∧
    (pyConcatenateVideos ["a.mp4"]
        (fun m => if m.isEmpty then ((1 : Int), "no inputs") else (0, ""))).1.getLast? =
      some .deleteManifest := by
  have h := C9_concat_input_and_cleanup ["a.mp4"]
    (fun m => if m.isEmpty then ((1 : Int), "no inputs") else (0, ""))
    (by decide)
  exact ⟨h.1, h.2.2.1⟩

/-- Witness for C10 at `x = 49`, `y = 50`. -/
theorem C10_origin_snap_witness :
    (containerCaptureGeom ⟨49, 50, 800, 600⟩).2.2.1 = 0 ∧
    (containerCaptureGeom ⟨49, 50, 800, 600⟩).2.2.2 = 50 := by
  have h := C10_origin_snap ⟨49, 50, 800, 600⟩
  exact ⟨h.1 (by norm_num), h.2.2.2.1 (by norm_num)⟩

end Getademo
